import Mathlib

/-!
Verification of the Atlas entity/event/edit subsystem against its source.

Shallow embedding of the JavaScript sources:
  * `src/src/model/GeoEntity.js`  — dirty tracking, style, selection, visibility;
  * `src/src/model/Feature.js`    — multi-form delegation, display modes, and the
    `Collection` aggregate appended in the same file;
  * `src/unnamed/part_004`        — `EntityManager` (`add`, `bulkCreate`);
  * `src/unnamed/part_005`        — `Handle` (`_delegateToTarget`, `translate`);
  * `src/src/model/GeoPoint.js`   — geographic points.

JavaScript numbers are embedded as `ℤ` (IEEE rounding is not modelled: the claims
under study are about delegation and state, not numeric precision, and the only
numeric operations involved are addition and equality).  Fallible code returns
`Except` or `Option`.  Stateful methods are explicit state transformers.
-/

namespace Atlas

/-! ## Styles and colours

`atlas/model/Colour` and `atlas/model/Style` are not under `src/`; only their use
sites are.  They are modelled from the spec (§4.2): a style bundles a fill colour
and a border colour, and `setStyle` treats styles as equal when they are
semantically (field-wise) equal.
-/

/-- Modelled from the spec: colours referenced by `GeoEntity.getDefaultStyle` /
`getSelectedStyle` (`Colour.GREEN`, `Colour.BLACK`, `Colour.RED`); the module
`atlas/model/Colour` itself is not under `src/`. -/
inductive Colour where
  | green
  | black
  | red
deriving DecidableEq, Repr

/-- Modelled from the spec: `atlas/model/Style` is not under `src/`.  A style is a
fill colour plus a border colour, and `Style.equals` is value equality on those
components ("no-op if style is semantically equal to current", spec §4.2). -/
structure Style where
  fillColour : Colour
  borderColour : Colour
deriving DecidableEq, Repr

/-- The `this._style && this._style.equals(style)` guard of `GeoEntity.setStyle`
(GeoEntity.js line 358): false when the current style is `null`, otherwise value
equality with the argument (false when the argument is `null`). -/
def styleGuard (current arg : Option Style) : Bool :=
  match current, arg with
  | some s, some t => s == t
  | _, _ => false

/-! ## GeoEntity (src/src/model/GeoEntity.js)

State relevant to the claims: current and previous style, the set of dirty
components (a JavaScript object used as a string-keyed set), the visibility flag
and the selection flag.
-/

structure GeoEntity where
  /-- `_style` (line 128); `null` before construction finishes. -/
  style : Option Style
  /-- `_previousStyle` (line 135). -/
  previousStyle : Option Style
  /-- `_dirty` (line 107): the keys of the object, in insertion order. -/
  dirty : List String
  /-- `_visible` (line 92). -/
  visible : Bool
  /-- `_selected` (line 141). -/
  selected : Bool
deriving DecidableEq, Repr

namespace GeoEntity

/-- `GeoEntity.getDefaultStyle` (lines 606-608). -/
def getDefaultStyle : Style := { fillColour := .green, borderColour := .black }

/-- `GeoEntity.getSelectedStyle` (lines 614-616). -/
def getSelectedStyle : Style := { fillColour := .red, borderColour := .black }

/-- `setDirty(component)` for a single string component (lines 304-306):
`this._dirty[component] = true` adds the key (keys are unique). -/
def setDirty (e : GeoEntity) (c : String) : GeoEntity :=
  if c ∈ e.dirty then e else { e with dirty := e.dirty ++ [c] }

/-- `clean()` (lines 347-349): `this._dirty = {}`. -/
def clean (e : GeoEntity) : GeoEntity := { e with dirty := [] }

/-- `isDirty(component)` for a given component (line 340): `component in this._dirty`. -/
def isDirty (e : GeoEntity) (c : String) : Bool := e.dirty.contains c

/-- `isRenderable()` (lines 387-389): `Object.keys(this._dirty).length === 0`. -/
def isRenderable (e : GeoEntity) : Bool := e.dirty.isEmpty

/-- Modelled from the spec: `_build` is abstract in GeoEntity.js (line 491, it
throws) and its concrete implementations live in renderer subclasses that are not
under `src/`.  Per the spec (§4.2) the dirty state machine transitions to clean
"only via an explicit rebuild (`_build`) or `setClean`", and `show()` "must
rebuild before rendering if dirty"; so `_build` rebuilds the geometry and leaves
the entity clean. -/
def buildImpl (e : GeoEntity) : GeoEntity := { e with dirty := [] }

/-- `isVisible()` (lines 532-534). -/
def isVisible (e : GeoEntity) : Bool := e.visible

/-- `setStyle(style)` (lines 356-368).  Returns only the updated entity; the
JavaScript return value (the old style, or `null` when unchanged) is not needed
by the claims. -/
def setStyle (e : GeoEntity) (style : Option Style) : GeoEntity :=
  if styleGuard e.style style then e
  else
    let e1 := setDirty e ("style")
    let e2 := { e1 with previousStyle := e1.style, style := style }
    -- `var isVisible = this.isVisible(); isVisible && this._build();`
    -- (`_updateVisibility` is a no-op in the base class, line 557).
    if e2.visible then buildImpl e2 else e2

/-- `getStyle()` (lines 373-375). -/
def getStyle (e : GeoEntity) : Option Style := e.style

/-- `getPreviousStyle()` (lines 380-382). -/
def getPreviousStyle (e : GeoEntity) : Option Style := e.previousStyle

/-- `show()` (lines 515-519): `this._visible = true; !this.isRenderable() &&
this._build(); this._updateVisibility(true)`. -/
def show' (e : GeoEntity) : GeoEntity :=
  let e1 := { e with visible := true }
  if !(isRenderable e1) then buildImpl e1 else e1

/-- `hide()` (lines 524-527). -/
def hide (e : GeoEntity) : GeoEntity := { e with visible := false }

/-- `_onSelect()` (lines 568-570). -/
def onSelect (e : GeoEntity) : GeoEntity := setStyle e (some getSelectedStyle)

/-- `_onDeselect()` (lines 575-577): `this.setStyle(this.getPreviousStyle())`. -/
def onDeselect (e : GeoEntity) : GeoEntity := setStyle e (getPreviousStyle e)

/-- `isSelected()` (lines 582-584): `return this._visible;`. -/
def isSelected (e : GeoEntity) : Bool := e.visible

/-- `setSelected(selected)` (lines 591-594): records the flag and applies the
select/deselect behaviour unconditionally (no guard against repeated calls). -/
def setSelected (e : GeoEntity) (sel : Bool) : GeoEntity :=
  let e1 := { e with selected := sel }
  if sel then onSelect e1 else onDeselect e1

/-- `_init(id, args)` (lines 154-178), restricted to the state modelled here:
`this.clean(); this.setDirty('entity'); ... this.setStyle(args.style ||
GeoEntity.getDefaultStyle()); ... this._visible = Setter.def(args.show, false)`.
Manager wiring and ID handling are out of scope for the claims. -/
def init (argsStyle : Option Style) (argsShow : Option Bool) : GeoEntity :=
  let e0 : GeoEntity :=
    { style := none, previousStyle := none, dirty := [], visible := false, selected := false }
  let e1 := setDirty (clean e0) ("entity")
  let e2 := setStyle e1 (some (argsStyle.getD getDefaultStyle))
  { e2 with visible := argsShow.getD false }

end GeoEntity

end Atlas

namespace Atlas

/-! ## GeoPoint (src/src/model/GeoPoint.js)

Latitude/longitude/elevation are JavaScript numbers, embedded as `ℤ`.
-/

structure GeoPoint where
  longitude : ℤ
  latitude : ℤ
  elevation : ℤ
deriving DecidableEq, Repr

namespace GeoPoint

/-- `translate(other)` (GeoPoint.js lines 126-130): returns a new point with the
component-wise sums. -/
def translate (p q : GeoPoint) : GeoPoint :=
  { longitude := p.longitude + q.longitude
    latitude := p.latitude + q.latitude
    elevation := p.elevation + q.elevation }

/-- `equals(other)` (GeoPoint.js lines 207-210): exact component equality. -/
def equals (p q : GeoPoint) : Bool := p == q

end GeoPoint

/-! ## Handle and its owner (src/unnamed/part_005)

The owner of a `Handle` is a vertexed `GeoEntity` (`Polygon`/`Line`): the part of
its state that `Handle._delegateToTarget` touches is the vertex array, the dirty
set and the visibility flag.  The owner's `_build` is renderer code not under
`src/`; it is modelled from the spec (§4.2) as rebuilding and cleaning, with a
`builds` counter recording that a rebuild happened.
-/

structure Owner where
  /-- The vertex array returned by `owner.getVertices()`. -/
  vertices : List GeoPoint
  /-- Dirty components, as in `GeoEntity._dirty`. -/
  dirty : List String
  /-- `_visible`. -/
  visible : Bool
  /-- Modelled from the spec: counts invocations of the owner's `_build` hook
  (not under `src/`), so that "requests the owner re-show" is observable. -/
  builds : Nat
deriving DecidableEq, Repr

namespace Owner

/-- `setDirty(component)` on the owner, as in GeoEntity.js lines 304-306. -/
def setDirty (o : Owner) (c : String) : Owner :=
  if c ∈ o.dirty then o else { o with dirty := o.dirty ++ [c] }

/-- `isDirty(component)`, as in GeoEntity.js line 340. -/
def isDirty (o : Owner) (c : String) : Bool := o.dirty.contains c

/-- Modelled from the spec: the owner's `_build` (renderer subclass, not under
`src/`) rebuilds the dirty aspects and cleans the entity (§4.2). -/
def buildImpl (o : Owner) : Owner := { o with dirty := [], builds := o.builds + 1 }

/-- `show()` on the owner, as in GeoEntity.js lines 515-519. -/
def show' (o : Owner) : Owner :=
  let o1 := { o with visible := true }
  if !o1.dirty.isEmpty then buildImpl o1 else o1

/-- Modelled from the spec: `translate` on a vertexed owner ("moves the whole
owner", §4.5) is not under `src/` (`VertexedEntity` is missing; `translate` is
abstract in GeoEntity.js line 451); each vertex is translated by the vector. -/
def translateWhole (o : Owner) (v : GeoPoint) : Owner :=
  { o with vertices := o.vertices.map (fun p => p.translate v) }

end Owner

/-- A `Handle` (src/unnamed/part_005): `_target` (line 41) and `_index` (line
48).  The `_dot` visual marker and the manager references are rendering detail
outside the claims. -/
structure Handle where
  target : Option GeoPoint
  index : Option Nat
deriving DecidableEq, Repr

namespace Handle

/-- `_delegateToTarget('translate', [v])` (part_005 lines 153-182), together with
`GeoPoint.translate`.  With a target: compute `result = target.translate(v)`; if
it differs from the target by value equality, write it back into the owner's
vertex array at `getIndex()`, synchronise the target, mark the owner dirty on
`vertices` and re-show the owner.  Without a target, move the whole owner.
`none` models the `TypeError` the JavaScript throws when the index is missing or
out of bounds (`owner.getVertices()[index]` is `undefined`). -/
def delegateTranslate (h : Handle) (o : Owner) (v : GeoPoint) : Option (Handle × Owner) :=
  match h.target with
  | some t =>
    let result := t.translate v
    if t.equals result then some (h, o)
    else
      match h.index with
      | some i =>
        if i < o.vertices.length then
          -- `ownerVertex.set(result)` mutates the array slot in place.
          let o1 := { o with vertices := o.vertices.set i result }
          -- `target.set(result)` keeps the handle's copy synchronised.
          let h1 := { h with target := some result }
          some (h1, Owner.show' (Owner.setDirty o1 ("vertices")))
        else none
      | none => none
  | none => some (h, Owner.translateWhole o v)

/-- `translate(translation, args)` (part_005 lines 184-190) with the default
`delegate: true`; the `_dot` translation is rendering detail. -/
def translate (h : Handle) (o : Owner) (v : GeoPoint) : Option (Handle × Owner) :=
  delegateTranslate h o v

end Handle

end Atlas

namespace Atlas

/-! ## Feature (src/src/model/Feature.js)

A Feature owns up to one form per slot (`_line`, `_footprint`, `_mesh`,
`_image`) and an active display mode.  `extrusion` aliases the footprint slot
(`_getFormPropertyName`, lines 200-210).  At construction `_initDelegation`
(lines 134-144) installs own properties for a list of methods that delegate to
the active form; those own properties shadow the prototype methods of the same
name (in particular `setElevation`).
-/

/-- `Feature.DisplayMode` (Feature.js lines 485-491). -/
inductive DisplayMode where
  | line
  | footprint
  | extrusion
  | mesh
  | image
deriving DecidableEq, Repr

namespace DisplayMode

/-- The lookup `Feature.DisplayMode[displayMode.toUpperCase()]` used by
`_getFormPropertyName` (line 205): valid display-mode names map to their mode. -/
def ofString? (s : String) : Option DisplayMode :=
  if s == "line" then some .line
  else if s == "footprint" then some .footprint
  else if s == "extrusion" then some .extrusion
  else if s == "mesh" then some .mesh
  else if s == "image" then some .image
  else none

/-- `Feature.getDisplayModeIds()` (lines 493-495): the values of the
`DisplayMode` object, in declaration order. -/
def ids : List DisplayMode := [.line, .footprint, .extrusion, .mesh, .image]

end DisplayMode

/-- The four form-storage properties of a Feature. -/
inductive FormSlot where
  | line
  | footprint
  | mesh
  | image
deriving DecidableEq, Repr

/-- `_getFormPropertyName(displayMode)` (Feature.js lines 200-210) restricted to
valid modes: `extrusion` is re-mapped to the footprint slot. -/
def DisplayMode.slot : DisplayMode → FormSlot
  | .line => .line
  | .footprint => .footprint
  | .extrusion => .footprint
  | .mesh => .mesh
  | .image => .image

/-- A form registered with a Feature: a `Polygon`/`Line`/`Mesh`/`Image`, i.e. a
`GeoEntity` with vertices, an extrusion height, a base elevation and the
`_showAsExtrusion` flag of Polygon.js. -/
structure Form where
  base : GeoEntity
  height : ℤ
  elevation : ℤ
  showAsExtrusion : Bool
  vertices : List GeoPoint
deriving DecidableEq, Repr

namespace Form

/-- Modelled from the spec: `_update` of the vertexed entities re-renders the
entity after a mutation — it rebuilds when the entity is currently visible
(§4.2: "rebuilds if currently visible"); the implementation is not under
`src/`. -/
def update (f : Form) : Form :=
  if f.base.visible then { f with base := GeoEntity.buildImpl f.base } else f

/-- `setStyle` on a form is `GeoEntity.setStyle` (GeoEntity.js lines 356-368). -/
def setStyle (f : Form) (st : Option Style) : Form :=
  { f with base := GeoEntity.setStyle f.base st }

/-- `Polygon.setHeight(height)` (Polygon.js lines 121-127): update, mark
`vertices` dirty and re-render only when the height actually changes. -/
def setHeight (f : Form) (h : ℤ) : Form :=
  if f.height == h then f
  else update { f with height := h, base := GeoEntity.setDirty f.base ("vertices") }

/-- Modelled from the spec: `setElevation` of the vertexed entities is not under
`src/` ("sets the elevation of the base of the feature"); mirrored on
`Polygon.setHeight`: set, mark `vertices` dirty, re-render, when changed. -/
def setElevation (f : Form) (e : ℤ) : Form :=
  if f.elevation == e then f
  else update { f with elevation := e, base := GeoEntity.setDirty f.base ("vertices") }

/-- Modelled from the spec: `translate` of the vertexed entities is not under
`src/` (abstract in GeoEntity.js line 451); every vertex is translated by the
vector. -/
def translate (f : Form) (v : GeoPoint) : Form :=
  { f with vertices := f.vertices.map (fun p => p.translate v) }

/-- `show()` on a form (GeoEntity.js lines 515-519). -/
def show' (f : Form) : Form := { f with base := GeoEntity.show' f.base }

/-- `hide()` on a form (GeoEntity.js lines 524-527). -/
def hide (f : Form) : Form := { f with base := GeoEntity.hide f.base }

/-- `Polygon.enableExtrusion()` (Polygon.js lines 89-96). -/
def enableExtrusion (f : Form) : Form :=
  if f.showAsExtrusion then f
  else update { f with showAsExtrusion := true, base := GeoEntity.setDirty f.base ("model") }

/-- `Polygon.disableExtrusion()` (Polygon.js lines 101-108). -/
def disableExtrusion (f : Form) : Form :=
  if !f.showAsExtrusion then f
  else update { f with showAsExtrusion := false, base := GeoEntity.setDirty f.base ("model") }

end Form

/-- The Feature state used by the claims: the four form slots (`_line`,
`_footprint`, `_mesh`, `_image`, Feature.js lines 54-75), the active display
mode (`_displayMode`, line 98), extrusion height and elevation (lines 82-89),
the style and visibility inherited from `GeoEntity`. -/
structure Feature where
  line : Option Form
  footprint : Option Form
  mesh : Option Form
  image : Option Form
  displayMode : Option DisplayMode
  height : ℤ
  elevation : ℤ
  style : Option Style
  visible : Bool
deriving DecidableEq, Repr

namespace Feature

/-- Read the form stored in a slot. -/
def getSlot (f : Feature) : FormSlot → Option Form
  | .line => f.line
  | .footprint => f.footprint
  | .mesh => f.mesh
  | .image => f.image

/-- Apply an operation to the form stored in a slot, when present. -/
def mapSlot (f : Feature) (s : FormSlot) (g : Form → Form) : Feature :=
  match s with
  | .line => { f with line := f.line.map g }
  | .footprint => { f with footprint := f.footprint.map g }
  | .mesh => { f with mesh := f.mesh.map g }
  | .image => { f with image := f.image.map g }

/-- `getForm()` with no argument (Feature.js lines 175-184): the form of the
current display mode, or `null` when no mode is set. -/
def getForm (f : Feature) : Option Form :=
  match f.displayMode with
  | some m => f.getSlot m.slot
  | none => none

/-- `_delegateToForm(method, args)` (Feature.js lines 146-149): apply the
operation to the currently active form only (no-op without one). -/
def delegateToForm (f : Feature) (g : Form → Form) : Feature :=
  match f.displayMode with
  | some m => f.mapSlot m.slot g
  | none => f

/-- `_delegateToForms(method, args)` (Feature.js lines 151-156): apply the
operation to every element of `getForms()` (lines 186-193), which iterates the
display-mode ids — so the footprint slot is reached twice, once as `footprint`
and once as `extrusion`. -/
def delegateToForms (f : Feature) (g : Form → Form) : Feature :=
  DisplayMode.ids.foldl (fun acc m => acc.mapSlot m.slot g) f

/-- `Feature.show()` (Feature.js lines 352-395): hide the inactive forms, show
the active one (dis/enabling extrusion on the footprint as required), then run
the superclass `show()` — whose `_build` is Feature's no-op `_build` (lines
430-432), so only the visibility flag changes. -/
def show' (f : Feature) : Feature :=
  let f1 :=
    match f.displayMode with
    | some .line =>
      (((f.mapSlot .mesh Form.hide).mapSlot .footprint Form.hide).mapSlot .image Form.hide).mapSlot
        .line Form.show'
    | some .footprint =>
      (((f.mapSlot .mesh Form.hide).mapSlot .line Form.hide).mapSlot .image Form.hide).mapSlot
        .footprint (fun fp => Form.show' (Form.disableExtrusion fp))
    | some .extrusion =>
      (((f.mapSlot .mesh Form.hide).mapSlot .line Form.hide).mapSlot .image Form.hide).mapSlot
        .footprint (fun fp => Form.show' (Form.enableExtrusion fp))
    | some .mesh =>
      (((f.mapSlot .footprint Form.hide).mapSlot .line Form.hide).mapSlot .image Form.hide).mapSlot
        .mesh Form.show'
    | some .image =>
      (((f.mapSlot .footprint Form.hide).mapSlot .line Form.hide).mapSlot .image Form.hide).mapSlot
        .image Form.show'
    | none => f
  { f1 with visible := true }

/-- `Feature.hide()` (Feature.js lines 407-410): superclass `hide()` then
delegate `hide` to the active form. -/
def hide (f : Feature) : Feature :=
  Feature.delegateToForm { f with visible := false } Form.hide

/-- `setDisplayMode(displayMode)` (Feature.js lines 415-421): when a mode is
given, `_getFormPropertyName` (lines 200-210) validates the mode *name* and
throws `DeveloperError` for an unknown one — it never checks that a form is
registered for the mode; then the mode is stored and the feature re-shown or
hidden depending on its visibility. -/
def setDisplayMode (f : Feature) (m : Option String) : Except String Feature :=
  match m with
  | some s =>
    match DisplayMode.ofString? s with
    | some d =>
      let f1 := { f with displayMode := some d }
      .ok (if f1.visible then f1.show' else f1.hide)
    | none => .error ("Invalid display mode " ++ s)
  | none =>
    let f1 := { f with displayMode := none }
    .ok (if f1.visible then f1.show' else f1.hide)

/-- `Feature.setStyle(style)` (Feature.js lines 269-273): record the style and
delegate to *all* forms.  This prototype method is not shadowed by
`_initDelegation` (its list, lines 135-138, does not contain `setStyle`). -/
def setStyle (f : Feature) (st : Style) : Feature :=
  Feature.delegateToForms { f with style := some st } (fun x => Form.setStyle x (some st))

/-- `Feature.setHeight(height)` (Feature.js lines 256-260): record the height
and delegate to *all* forms; also not shadowed by `_initDelegation`. -/
def setHeight (f : Feature) (h : ℤ) : Feature :=
  Feature.delegateToForms { f with height := h } (fun x => Form.setHeight x h)

/-- The `setElevation` actually invoked on a constructed Feature: the own
property installed by `_initDelegation` (Feature.js lines 134-144, whose method
list ends with `'setElevation'`), which shadows the prototype `setElevation` of
lines 238-242 and forwards to the *active form only*. -/
def setElevation (f : Feature) (e : ℤ) : Feature :=
  Feature.delegateToForm f (fun x => Form.setElevation x e)

/-- The prototype `Feature.setElevation(elevation)` (Feature.js lines 238-242):
records the elevation and forwards to all forms.  Unreachable through normal
method dispatch on a constructed Feature, because `_initDelegation` installs the
own property `setElevation` (see `Feature.setElevation` above). -/
def setElevationPrototype (f : Feature) (e : ℤ) : Feature :=
  Feature.delegateToForms { f with elevation := e } (fun x => Form.setElevation x e)

/-- `translate`, one of the methods `_initDelegation` (lines 135-138) installs
as delegation to the active form only. -/
def translate (f : Feature) (v : GeoPoint) : Feature :=
  Feature.delegateToForm f (fun x => Form.translate x v)

end Feature

end Atlas

namespace Atlas

/-! ## Collection (the second module of src/src/model/Feature.js, after the
separator: `Collection`, lines 532-949 of the file)

The Collection's `ItemStore` (`atlas/core/ItemStore`) is not under `src/`; per
the spec (§3) it is an ordered keyed collection whose `every`/`some`/`forEach`
iterate the items in insertion order — modelled as the list of child entities in
insertion order.
-/

structure CollectionState where
  /-- `_entities`: the child `GeoEntity` objects tracked by the collection, in
  insertion order. -/
  entities : List GeoEntity
deriving DecidableEq, Repr

namespace CollectionState

/-- `_everyEntity(methodName, args, callback)` (Feature.js lines 648-657):
`this._entities.every(...)` with the callback applied to each returned value. -/
def everyEntity (c : CollectionState) (p : GeoEntity → Bool) : Bool := c.entities.all p

/-- `_someEntity(methodName, args, callback)` (Feature.js lines 669-678). -/
def someEntity (c : CollectionState) (p : GeoEntity → Bool) : Bool := c.entities.any p

/-- `isRenderable`, installed by `_initDelegation` (lines 723-731): every child
must return a truthy value. -/
def isRenderable (c : CollectionState) : Bool :=
  everyEntity c (fun e => GeoEntity.isRenderable e)

/-- `isSelected`, installed by `_initDelegation` (lines 723-731): every child
must return a truthy value. -/
def isSelected (c : CollectionState) : Bool :=
  everyEntity c (fun e => GeoEntity.isSelected e)

/-- `isVisible`, installed by `_initDelegation` (lines 732-740): some child must
return a truthy value. -/
def isVisible (c : CollectionState) : Bool :=
  someEntity c (fun e => GeoEntity.isVisible e)

end CollectionState

/-- A visible sample child entity (the claim's child `A`). -/
def visibleChild : GeoEntity :=
  { style := some GeoEntity.getDefaultStyle, previousStyle := none, dirty := [],
    visible := true, selected := false }

/-- A hidden sample child entity (the claim's child `B`). -/
def hiddenChild : GeoEntity :=
  { style := some GeoEntity.getDefaultStyle, previousStyle := none, dirty := [],
    visible := false, selected := false }

/-- A sample child entity with a dirty component, hence not renderable. -/
def dirtyChild : GeoEntity :=
  { style := some GeoEntity.getDefaultStyle, previousStyle := none, dirty := ["vertices"],
    visible := true, selected := false }

/-! ## Event bubbling through a Collection (C8)

`EventManager.dispatchEvent` is not under `src/` (only `EventTarget` is); it is
modelled from the spec (§4.1): an event is delivered "first to the target's own
handlers (`handleEvent`), then — unless `event.cancel()` was called during
handling — bubbles to `target.getParent()`, repeating until no parent or
cancellation".  A bubbling chain is the list of the event's target and its
ancestors, nearest first.  The only handler relevant to the claim is the
Collection's `entity/remove` listener (`Collection._initEvents`, Feature.js
lines 753-770).
-/

/-- What kind of handlers a node in the bubbling chain has for `entity/remove`:
a plain `GeoEntity` has none; a Collection has the `_initEvents` listener. -/
inductive NodeKind where
  | plain
  | collection
deriving DecidableEq, Repr

/-- A node of the bubbling chain: its id, its kind, and (for a collection) the
ids in its `ItemStore` of tracked children. -/
structure Node where
  id : String
  kind : NodeKind
  entities : List String
deriving DecidableEq, Repr

/-- The Collection's `entity/remove` listener (Feature.js lines 753-770) run as
part of `handleEvent`: on an event that did not originate at the collection
itself, detach the removed entity when it is a tracked child
(`if (this.getEntity(id)) { this.removeEntity(id); }`), then call
`event.cancel()` unconditionally.  Returns the updated node and whether the
event was cancelled.  Plain nodes have no listener. -/
def handleEntityRemove (targetId : String) (n : Node) : Node × Bool :=
  match n.kind with
  | .plain => (n, false)
  | .collection =>
    if targetId == n.id then (n, false)
    else
      (if n.entities.contains targetId
        then { n with entities := n.entities.erase targetId }
        else n,
        true)

/-- Modelled from the spec: `EventManager.dispatchEvent` (§4.1) on an
`entity/remove` event whose target has the given id — deliver to each node of
the chain in order, stopping as soon as a handler cancels the event.  Returns
the updated chain and the ids of the nodes whose `handleEvent` ran (the nodes
that observed the event). -/
def dispatchEntityRemove (targetId : String) : List Node → List Node × List String
  | [] => ([], [])
  | n :: rest =>
    let step := handleEntityRemove targetId n
    if step.2 then (step.1 :: rest, [n.id])
    else
      let bubbled := dispatchEntityRemove targetId rest
      (step.1 :: bubbled.1, n.id :: bubbled.2)

/-! ## EntityManager.add (src/unnamed/part_004, lines 511-522) -/

/-- A value passed to `EntityManager.add`: its id and whether it is an instance
of `atlas/model/GeoEntity` (the `instanceof` check of line 516). -/
structure StoreEntry where
  id : String
  isGeoEntity : Bool
deriving DecidableEq, Repr

/-- The two error kinds of `EntityManager.add`: the plain `Error` of line 514
for a duplicate id, and the `DeveloperError` of lines 517-518 for a value that
is not a `GeoEntity`. -/
inductive AddError where
  | duplicateId (id : String)
  | notGeoEntity
deriving DecidableEq, Repr

namespace EntityManager

/-- `add(entity)` (part_004 lines 511-522): reject an id already in the store,
then reject a non-GeoEntity value, else append to the store.  The store is the
`ItemStore` content in insertion order (`ItemStore` is not under `src/`; per the
spec §3 it is an ordered keyed collection with unique ids). -/
def add (store : List StoreEntry) (e : StoreEntry) : Except AddError (List StoreEntry) :=
  if store.any (fun x => x.id == e.id) then .error (.duplicateId e.id)
  else if !e.isGeoEntity then .error .notGeoEntity
  else .ok (store ++ [e])

end EntityManager

/-! ## EntityManager.bulkCreate (src/unnamed/part_004, lines 320-367)

`bulkCreate` builds parent→child edges from the `children` fields, checks for
duplicate ids in the batch, topologically sorts the edges with the
`atlas/lib/topsort` library (not under `src/`, modelled from the spec §4.6 as a
topological sort over the edges, an error on a cycle), reverses the result so
children precede parents, appends in input order the ids not in any hierarchy,
and creates each id in that order, skipping ids already in the manager.
-/

/-- A C3ML descriptor restricted to what the sorting in `bulkCreate` consumes:
the id and the `children` ids (a missing `children` field and an empty array
both contribute no edges). -/
structure C3ml where
  id : String
  children : List String
deriving DecidableEq, Repr

/-- A parent → child edge, as pushed by `edges.push([id, childId])` (line 331). -/
abbrev Edge := String × String

/-- The edge list built by the first `forEach` of `bulkCreate` (lines 326-339). -/
def c3Edges (batch : List C3ml) : List Edge :=
  batch.flatMap (fun d => d.children.map (fun c => (d.id, c)))

/-- `sortMap` (line 332): the ids that take part in at least one edge. -/
def inSortMap (batch : List C3ml) (x : String) : Bool :=
  (c3Edges batch).any (fun e => e.1 == x || e.2 == x)

/-- The node set of an edge list (the topsort library derives the nodes from
the edges; their relative order does not matter to `bulkCreate`). -/
def edgeNodes (edges : List Edge) : List String :=
  (edges.flatMap (fun e => [e.1, e.2])).dedup

/-- The condition for a node to be emitted by Kahn's algorithm: none of its
incoming edges starts at a still-remaining node. -/
def noIncoming (edges : List Edge) (remaining : List String) (n : String) : Bool :=
  !(edges.any (fun e => e.2 == n && remaining.contains e.1))

/-- Modelled from the spec: the `atlas/lib/topsort` library is not under
`src/`; the spec (§4.6) requires a "topological sort over the induced
parent→children edges", failing on a cycle.  Kahn's algorithm: repeatedly emit
a remaining node with no incoming edge from a remaining node.  The fuel makes
the recursion structural (fuel `remaining.length` always suffices); when no node
can be emitted and nodes remain, the edges contain a cycle. -/
def kahnGo (edges : List Edge) : Nat → List String → Except String (List String)
  | 0, remaining => if remaining.isEmpty then .ok [] else .error ("cycle")
  | fuel + 1, remaining =>
    match remaining.find? (noIncoming edges remaining) with
    | none => if remaining.isEmpty then .ok [] else .error ("cycle")
    | some n =>
      match kahnGo edges fuel (remaining.erase n) with
      | .ok rest => .ok (n :: rest)
      | .error msg => .error msg

/-- `topsort(edges)` (line 340): sort the nodes of the edge list so that every
edge goes from an earlier node to a later one. -/
def topsort (edges : List Edge) : Except String (List String) :=
  kahnGo edges (edgeNodes edges).length (edgeNodes edges)

/-- One step of the creation loop (lines 351-365): skip an id already in the
store (`if (!this.getById(id))`); otherwise create it — the `GeoEntity`
constructor registers the new entity with the manager (GeoEntity.js line 174),
so the id joins the store.  A sorted id without a descriptor in the batch makes
the JavaScript crash inside `_parseC3ml`; here it is an error. -/
def createStep (batch : List C3ml) (store : List String) (id : String) :
    Except String (List String) :=
  if store.contains id then .ok store
  else if batch.any (fun d => d.id == id) then .ok (store ++ [id])
  else .error ("no descriptor for " ++ id)

/-- The creation loop of `bulkCreate` (lines 351-365) over a list of ids. -/
def createFold (batch : List C3ml) (store : List String) :
    List String → Except String (List String)
  | [] => .ok store
  | id :: rest =>
    match createStep batch store id with
    | .ok store1 => createFold batch store1 rest
    | .error msg => .error msg

/-- The creation order of `bulkCreate` (lines 320-350): an error on duplicate
ids within the batch (line 336); otherwise the reversed topological sort (lines
340-343) followed, in input order, by the ids not taking part in any hierarchy
(lines 344-350). -/
def bulkCreateOrder (batch : List C3ml) : Except String (List String) :=
  if (batch.map C3ml.id).Nodup then
    match topsort (c3Edges batch) with
    | .ok sorted =>
      .ok (sorted.reverse ++ (batch.map C3ml.id).filter (fun i => !(inSortMap batch i)))
    | .error msg => .error msg
  else .error ("Duplicate IDs for c3mls")

/-- `bulkCreate(c3mls)` on a manager whose store initially holds `store0`:
returns the creation order together with the store after all creations. -/
def bulkCreate (batch : List C3ml) (store0 : List String) :
    Except String (List String × List String) :=
  match bulkCreateOrder batch with
  | .ok order =>
    match createFold batch store0 order with
    | .ok store1 => .ok (order, store1)
    | .error msg => .error msg
  | .error msg => .error msg

/-- The manager's store at the moment the entity `p` is about to be created:
the creation loop applied to the prefix of the order strictly before `p`. -/
def storeWhenCreating (batch : List C3ml) (store0 : List String) (order : List String)
    (p : String) : Except String (List String) :=
  createFold batch store0 (order.takeWhile (fun x => !(x == p)))

/-- Whether `a` occurs in the list with an occurrence of `b` somewhere after
it. -/
def listBefore (l : List String) (a b : String) : Bool :=
  match l with
  | [] => false
  | x :: xs => (x == a && xs.contains b) || listBefore xs a b

end Atlas

namespace Atlas

/-- A sample invisible, clean base entity with the default style. -/
def sampleBase : GeoEntity :=
  { style := some GeoEntity.getDefaultStyle, previousStyle := none, dirty := [],
    visible := false, selected := false }

/-- A sample polygon form (elevation 0). -/
def samplePolygonForm : Form :=
  { base := sampleBase, height := 0, elevation := 0, showAsExtrusion := false,
    vertices := [⟨0, 0, 0⟩, ⟨1, 0, 0⟩, ⟨0, 1, 0⟩] }

/-- A sample mesh form (elevation 0). -/
def sampleMeshForm : Form :=
  { base := sampleBase, height := 0, elevation := 0, showAsExtrusion := false,
    vertices := [⟨0, 0, 0⟩] }

/-- A Feature whose only registered form is the polygon in the footprint slot,
in display mode `footprint`, currently hidden (the C2 scenario). -/
def footprintOnlyFeature : Feature :=
  { line := none, footprint := some samplePolygonForm, mesh := none, image := none,
    displayMode := some .footprint, height := 0, elevation := 0,
    style := some GeoEntity.getDefaultStyle, visible := false }

/-- A Feature with a footprint polygon and a mesh, active display mode
`footprint` (the C7 scenario). -/
def footprintMeshFeature : Feature :=
  { footprintOnlyFeature with mesh := some sampleMeshForm }

end Atlas

namespace Atlas

/-- Helper: `GeoEntity.setStyle` with a non-null argument always leaves that
style in place (when the guard fires, the current style already equals it). -/
theorem GeoEntity.setStyle_style (e : GeoEntity) (st : Style) :
    (GeoEntity.setStyle e (some st)).style = some st := by
  unfold GeoEntity.setStyle
  split
  · next hg =>
    unfold styleGuard at hg
    cases he : e.style with
    | none => rw [he] at hg; simp at hg
    | some s => rw [he] at hg; simp only [beq_iff_eq] at hg; rw [hg]
  · dsimp only
    split <;> rfl

/-- Helper: after `Form.setStyle` with a style, the form carries that style. -/
theorem Form.setStyle_base_style (f : Form) (st : Style) :
    (Form.setStyle f (some st)).base.style = some st :=
  GeoEntity.setStyle_style f.base st

/-- Helper: after `Form.setHeight`, the form carries that height. -/
theorem Form.setHeight_height (f : Form) (h : ℤ) :
    (Form.setHeight f h).height = h := by
  unfold Form.setHeight
  split
  · next hg => exact (beq_iff_eq.mp hg).symm ▸ rfl
  · unfold Form.update; split <;> rfl

/-- Helper: after `Form.setElevation`, the form carries that elevation. -/
theorem Form.setElevation_elevation (f : Form) (e : ℤ) :
    (Form.setElevation f e).elevation = e := by
  unfold Form.setElevation
  split
  · next hg => exact (beq_iff_eq.mp hg).symm ▸ rfl
  · unfold Form.update; split <;> rfl

end Atlas

namespace Atlas

/-- Helper: `listBefore` is preserved by appending on the right. -/
theorem listBefore_append_left {l : List String} (r : List String) {a b : String}
    (h : listBefore l a b = true) : listBefore (l ++ r) a b = true := by
  induction l with
  | nil => simp [listBefore] at h
  | cons x xs ih =>
    simp only [listBefore, Bool.or_eq_true, Bool.and_eq_true] at h
    simp only [List.cons_append, listBefore, Bool.or_eq_true, Bool.and_eq_true]
    rcases h with ⟨hx, hb⟩ | h
    · refine Or.inl ⟨hx, ?_⟩
      simp only [List.contains, List.elem_iff] at hb ⊢
      exact List.mem_append_left r hb
    · exact Or.inr (ih h)

/-- Helper: both elements of a `listBefore` pair occur in the list. -/
theorem listBefore_mem {l : List String} {a b : String}
    (h : listBefore l a b = true) : a ∈ l ∧ b ∈ l := by
  induction l with
  | nil => simp [listBefore] at h
  | cons x xs ih =>
    simp only [listBefore, Bool.or_eq_true, Bool.and_eq_true] at h
    rcases h with ⟨hx, hb⟩ | h
    · simp only [beq_iff_eq] at hx
      simp only [List.contains, List.elem_iff] at hb
      exact ⟨hx ▸ List.mem_cons_self x xs, List.mem_cons_of_mem x hb⟩
    · exact ⟨List.mem_cons_of_mem x (ih h).1, List.mem_cons_of_mem x (ih h).2⟩

/-- Helper: an element of `l` comes before the head of whatever follows `l`. -/
theorem listBefore_append_of_mem {l : List String} {b : String} (r : List String) (a : String)
    (h : b ∈ l) : listBefore (l ++ a :: r) b a = true := by
  induction l with
  | nil => simp at h
  | cons y ys ih =>
    rcases List.mem_cons.mp h with hy | hys
    · simp only [List.cons_append, listBefore, Bool.or_eq_true, Bool.and_eq_true]
      refine Or.inl ⟨by simp [hy], ?_⟩
      simp only [List.contains, List.elem_iff]
      exact List.mem_append_right ys (List.mem_cons_self a r)
    · simp only [List.cons_append, listBefore, Bool.or_eq_true]
      exact Or.inr (ih hys)

/-- Helper: reversing a list swaps `listBefore`. -/
theorem listBefore_reverse {l : List String} {a b : String}
    (h : listBefore l a b = true) : listBefore l.reverse b a = true := by
  induction l with
  | nil => simp [listBefore] at h
  | cons x xs ih =>
    simp only [listBefore, Bool.or_eq_true, Bool.and_eq_true] at h
    rw [List.reverse_cons]
    rcases h with ⟨hx, hb⟩ | h
    · simp only [beq_iff_eq] at hx
      simp only [List.contains, List.elem_iff] at hb
      subst hx
      exact listBefore_append_of_mem [] x (List.mem_reverse.mpr hb)
    · exact listBefore_append_left [x] (ih h)

/-- Helper: in a duplicate-free list, the left element of a `listBefore` pair is
kept by `takeWhile` up to (excluding) the right element. -/
theorem listBefore_mem_takeWhile {l : List String} {a b : String}
    (hnd : l.Nodup) (h : listBefore l a b = true) :
    a ∈ l.takeWhile (fun x => !(x == b)) := by
  induction l with
  | nil => simp [listBefore] at h
  | cons x xs ih =>
    simp only [listBefore, Bool.or_eq_true, Bool.and_eq_true] at h
    have hxnb : x ≠ b := by
      rcases h with ⟨_, hb⟩ | h
      · simp only [List.contains, List.elem_iff] at hb
        intro hxb
        exact (List.nodup_cons.mp hnd).1 (hxb ▸ hb)
      · intro hxb
        exact (List.nodup_cons.mp hnd).1 (hxb ▸ (listBefore_mem h).2)
    rw [List.takeWhile_cons_of_pos (by simpa using hxnb)]
    rcases h with ⟨hx, _⟩ | h
    · simp only [beq_iff_eq] at hx
      exact hx ▸ List.mem_cons_self x _
    · exact List.mem_cons_of_mem x (ih (List.nodup_cons.mp hnd).2 h)

end Atlas

namespace Atlas

/-- Helper: a successful `kahnGo` run emits exactly the remaining nodes. -/
theorem kahnGo_mem (edges : List Edge) :
    ∀ (fuel : Nat) (remaining L : List String),
      kahnGo edges fuel remaining = .ok L → (∀ x, x ∈ L ↔ x ∈ remaining) := by
  intro fuel
  induction fuel with
  | zero =>
    intro remaining L h x
    simp only [kahnGo] at h
    split at h
    · next hemp =>
      injection h with hL
      subst hL
      simp [List.isEmpty_iff.mp hemp]
    · cases h
  | succ n ih =>
    intro remaining L h x
    simp only [kahnGo] at h
    split at h
    · split at h
      · next hemp =>
        injection h with hL
        subst hL
        simp [List.isEmpty_iff.mp hemp]
      · cases h
    · next m hf =>
      split at h
      · next rest hr =>
        injection h with hL
        subst hL
        have hmem := ih (remaining.erase m) rest hr
        have hm : m ∈ remaining := List.mem_of_find?_eq_some hf
        constructor
        · intro hx
          rcases List.mem_cons.mp hx with rfl | hx
          · exact hm
          · exact List.mem_of_mem_erase ((hmem x).mp hx)
        · intro hx
          by_cases hxm : x = m
          · exact hxm ▸ List.mem_cons_self _ _
          · exact List.mem_cons_of_mem _ ((hmem x).mpr ((List.mem_erase_of_ne hxm).mpr hx))
      · cases h

/-- Helper: a successful `kahnGo` run on duplicate-free nodes is
duplicate-free. -/
theorem kahnGo_nodup (edges : List Edge) :
    ∀ (fuel : Nat) (remaining L : List String), remaining.Nodup →
      kahnGo edges fuel remaining = .ok L → L.Nodup := by
  intro fuel
  induction fuel with
  | zero =>
    intro remaining L _ h
    simp only [kahnGo] at h
    split at h
    · injection h with hL
      subst hL
      exact List.nodup_nil
    · cases h
  | succ n ih =>
    intro remaining L hnd h
    simp only [kahnGo] at h
    split at h
    · split at h
      · injection h with hL
        subst hL
        exact List.nodup_nil
      · cases h
    · next m hf =>
      split at h
      · next rest hr =>
        injection h with hL
        subst hL
        refine List.nodup_cons.mpr ⟨?_, ih _ rest (hnd.erase m) hr⟩
        intro hmrest
        have hm := (kahnGo_mem edges n (remaining.erase m) rest hr m).mp hmrest
        exact ((List.Nodup.mem_erase_iff hnd).mp hm).1 rfl
      · cases h

/-- Helper: a successful `kahnGo` run respects the edges — for every edge both
of whose ends are among the nodes, the source is emitted before the target. -/
theorem kahnGo_order (edges : List Edge) :
    ∀ (fuel : Nat) (remaining L : List String),
      kahnGo edges fuel remaining = .ok L →
      ∀ u v, (u, v) ∈ edges → u ∈ remaining → v ∈ remaining →
        listBefore L u v = true := by
  intro fuel
  induction fuel with
  | zero =>
    intro remaining L h u v _ _ hv
    simp only [kahnGo] at h
    split at h
    · next hemp =>
      rw [List.isEmpty_iff.mp hemp] at hv
      simp at hv
    · cases h
  | succ n ih =>
    intro remaining L h u v he hu hv
    simp only [kahnGo] at h
    split at h
    · split at h
      · next hemp =>
        rw [List.isEmpty_iff.mp hemp] at hv
        simp at hv
      · cases h
    · next m hf =>
      split at h
      · next rest hr =>
        injection h with hL
        subst hL
        have hvm : v ≠ m := by
          intro hvm
          subst hvm
          have hni := List.find?_some hf
          unfold noIncoming at hni
          rw [Bool.not_eq_true'] at hni
          rw [List.any_eq_false] at hni
          have hfe := hni (u, v) he
          simp [hu] at hfe
        by_cases hum : u = m
        · subst hum
          have hvrest : v ∈ rest :=
            (kahnGo_mem edges n _ rest hr v).mpr ((List.mem_erase_of_ne hvm).mpr hv)
          simp only [listBefore, Bool.or_eq_true, Bool.and_eq_true]
          refine Or.inl ⟨by simp, ?_⟩
          simp only [List.contains, List.elem_iff]
          exact hvrest
        · have hu' := (List.mem_erase_of_ne hum).mpr hu
          have hv' := (List.mem_erase_of_ne hvm).mpr hv
          simp only [listBefore, Bool.or_eq_true]
          exact Or.inr (ih _ rest hr u v he hu' hv')
      · cases h

end Atlas

namespace Atlas

/-- Helper: a successful creation run over a concatenation splits into two
successful runs. -/
theorem createFold_append (batch : List C3ml) :
    ∀ (l1 l2 st st2 : List String),
      createFold batch st (l1 ++ l2) = .ok st2 →
      ∃ st1, createFold batch st l1 = .ok st1 ∧ createFold batch st1 l2 = .ok st2 := by
  intro l1
  induction l1 with
  | nil =>
    intro l2 st st2 h
    exact ⟨st, rfl, h⟩
  | cons x xs ih =>
    intro l2 st st2 h
    simp only [List.cons_append, createFold] at h ⊢
    cases hs : createStep batch st x with
    | ok st' =>
      rw [hs] at h
      simpa only [hs] using ih l2 st' st2 h
    | error msg =>
      rw [hs] at h
      cases h

/-- Helper: a successful creation run only grows the store, and afterwards the
store holds every id it was run over. -/
theorem createFold_mem (batch : List C3ml) :
    ∀ (ids st st' : List String),
      createFold batch st ids = .ok st' →
      (∀ x ∈ st, x ∈ st') ∧ (∀ x ∈ ids, x ∈ st') := by
  intro ids
  induction ids with
  | nil =>
    intro st st' h
    injection h with h
    subst h
    exact ⟨fun _ hx => hx, by simp⟩
  | cons y ys ih =>
    intro st st' h
    simp only [createFold] at h
    cases hs : createStep batch st y with
    | error msg =>
      rw [hs] at h
      cases h
    | ok st1 =>
      rw [hs] at h
      have hih := ih st1 st' h
      have hstep : (∀ x ∈ st, x ∈ st1) ∧ y ∈ st1 := by
        unfold createStep at hs
        split at hs
        · next hc =>
          injection hs with h1
          subst h1
          exact ⟨fun _ hx => hx, by simpa using hc⟩
        · split at hs
          · injection hs with h1
            subst h1
            exact ⟨fun _ hx => List.mem_append_left _ hx,
              List.mem_append_right _ (List.mem_singleton.mpr rfl)⟩
          · cases hs
      refine ⟨fun x hx => hih.1 x (hstep.1 x hx), ?_⟩
      intro x hx
      rcases List.mem_cons.mp hx with rfl | hx
      · exact hih.1 x hstep.2
      · exact hih.2 x hx

/-- Helper: an edge built from a batch descriptor is among the batch edges. -/
theorem mem_c3Edges {batch : List C3ml} {d : C3ml} {c : String}
    (hd : d ∈ batch) (hc : c ∈ d.children) : (d.id, c) ∈ c3Edges batch := by
  unfold c3Edges
  exact List.mem_flatMap.mpr ⟨d, hd, List.mem_map.mpr ⟨c, hc, rfl⟩⟩

/-- Helper: the source of an edge is among the nodes of the edge list. -/
theorem mem_edgeNodes_left {edges : List Edge} {e : Edge} (he : e ∈ edges) :
    e.1 ∈ edgeNodes edges := by
  unfold edgeNodes
  rw [List.mem_dedup]
  exact List.mem_flatMap.mpr ⟨e, he, by simp⟩

/-- Helper: the target of an edge is among the nodes of the edge list. -/
theorem mem_edgeNodes_right {edges : List Edge} {e : Edge} (he : e ∈ edges) :
    e.2 ∈ edgeNodes edges := by
  unfold edgeNodes
  rw [List.mem_dedup]
  exact List.mem_flatMap.mpr ⟨e, he, by simp⟩

/-- Helper: every node of the batch edges takes part in a hierarchy
(`sortMap`). -/
theorem inSortMap_of_mem_edgeNodes {batch : List C3ml} {x : String}
    (h : x ∈ edgeNodes (c3Edges batch)) : inSortMap batch x = true := by
  unfold edgeNodes at h
  rw [List.mem_dedup] at h
  rcases List.mem_flatMap.mp h with ⟨e, he, hx⟩
  unfold inSortMap
  rw [List.any_eq_true]
  refine ⟨e, he, ?_⟩
  simp only [List.mem_cons, List.mem_singleton] at hx
  rcases hx with rfl | hx
  · simp
  · rcases hx with rfl | hx
    · simp
    · simp at hx

end Atlas

/-- C10: `isSelected()` returns the visibility flag `_visible` (GeoEntity.js lines
582-584), not the `_selected` flag recorded by `setSelected` (lines 591-594):
after `hide()` it is false even when `setSelected(true)` was called and never
reverted, and after `show()` it is true even when the entity was never
selected. -/
theorem Atlas.c10_isSelected_returns_visibility (e : Atlas.GeoEntity) :
    Atlas.GeoEntity.isSelected e = Atlas.GeoEntity.isVisible e
    ∧ Atlas.GeoEntity.isSelected (Atlas.GeoEntity.hide (Atlas.GeoEntity.setSelected e true)) = false
    ∧ Atlas.GeoEntity.isSelected (Atlas.GeoEntity.show' e) = true := by
  refine ⟨rfl, rfl, ?_⟩
  simp only [Atlas.GeoEntity.show', Atlas.GeoEntity.isSelected]
  split <;> rfl

/-- C5: `isRenderable()` (GeoEntity.js lines 387-389) is true exactly when the
set of dirty components is empty, for every state and hence after any sequence of
mutators; and immediately after `show()` (lines 515-519) returns, the entity is
renderable, because `show()` rebuilds via `_build` when any component is dirty
(`_build` modelled from the spec as cleaning, see `GeoEntity.buildImpl`). -/
theorem Atlas.c5_renderable_iff_no_dirty (e : Atlas.GeoEntity) :
    (Atlas.GeoEntity.isRenderable e = true ↔ e.dirty = [])
    ∧ Atlas.GeoEntity.isRenderable (Atlas.GeoEntity.show' e) = true := by
  constructor
  · simp [Atlas.GeoEntity.isRenderable, List.isEmpty_iff]
  · simp only [Atlas.GeoEntity.show', Atlas.GeoEntity.isRenderable, Atlas.GeoEntity.buildImpl]
    cases e.dirty <;> simp

/-- C1 (code bug): starting from a freshly constructed entity with the default
style, the sequence `setSelected(true); setSelected(false); setSelected(false)`
leaves `getStyle()` equal to the selected (red) style instead of the original
default (green) style: `setSelected` (GeoEntity.js lines 591-594) has no guard
against repeated calls with the same value, so the second deselect re-applies
`_previousStyle` — which the first deselect had set to the selected style — in
contradiction with the claim (and with FeatureSpec.js: "Deselecting again should
have no effect"). -/
theorem Atlas.c1_repeated_deselect_corrupts_style :
    (Atlas.GeoEntity.getStyle (Atlas.GeoEntity.init none none)
        = some Atlas.GeoEntity.getDefaultStyle)
    ∧ (Atlas.GeoEntity.getStyle
        (Atlas.GeoEntity.setSelected
          (Atlas.GeoEntity.setSelected
            (Atlas.GeoEntity.setSelected (Atlas.GeoEntity.init none none) true) false) false)
        = some Atlas.GeoEntity.getSelectedStyle)
    ∧ Atlas.GeoEntity.getSelectedStyle ≠ Atlas.GeoEntity.getDefaultStyle := by
  refine ⟨rfl, rfl, by decide⟩

/-- C4 (counterexample): for the owner with vertices `[(0,0,0), (1,1,0), (2,2,0)]`
(none dirty, visible) and the handle targeting index 1, translating by `(1,2,0)`
does write `v1 + (1,2,0)` into the owner's vertex array at index 1 — but
`owner.isDirty('vertices')` is `false` when `translate` returns, not `true` as
the claim states, because `_delegateToTarget` calls `owner.show()` right after
`owner.setDirty('vertices')` and the re-show rebuilds the owner (spec §4.2: a
dirty entity transitions to clean via the rebuild in `_build`). -/
theorem Atlas.c4_counterexample :
    ∃ pair,
      Atlas.Handle.translate
        { target := some ⟨1, 1, 0⟩, index := some 1 }
        { vertices := [⟨0, 0, 0⟩, ⟨1, 1, 0⟩, ⟨2, 2, 0⟩], dirty := [], visible := true, builds := 0 }
        ⟨1, 2, 0⟩ = some pair
      ∧ pair.2.vertices[1]? = some (Atlas.GeoPoint.translate ⟨1, 1, 0⟩ ⟨1, 2, 0⟩)
      ∧ pair.2.isDirty ("vertices") = false := by
  refine ⟨({ target := some ⟨2, 3, 0⟩, index := some 1 },
    { vertices := [⟨0, 0, 0⟩, ⟨2, 3, 0⟩, ⟨2, 2, 0⟩], dirty := [], visible := true, builds := 1 }),
    by decide, by decide, by decide⟩

/-- C4 (amended): translating a Handle with target vertex `t` at a valid index
`i` by a vector that changes the target writes `t + v` back into the owner's
vertex array at index `i`, marks the owner dirty on `vertices`, and then asks the
owner to re-show — the re-show rebuilds the owner (one more `_build`, visible,
clean again), so `isDirty('vertices')` is true between the write-back and the
re-show rather than after `translate` returns; a Handle with no target vertex
moves the whole owner instead. -/
theorem Atlas.c4_amended (o : Atlas.Owner) (t v : Atlas.GeoPoint) (i : Nat)
    (hi : i < o.vertices.length) (hch : Atlas.GeoPoint.equals t (t.translate v) = false) :
    Atlas.Handle.translate { target := some t, index := some i } o v
      = some ({ target := some (t.translate v), index := some i },
          Atlas.Owner.show'
            (Atlas.Owner.setDirty { o with vertices := o.vertices.set i (t.translate v) }
              ("vertices")))
    ∧ (Atlas.Owner.setDirty { o with vertices := o.vertices.set i (t.translate v) }
        ("vertices")).isDirty ("vertices") = true
    ∧ (o.vertices.set i (t.translate v))[i]? = some (t.translate v)
    ∧ Atlas.Handle.translate { target := none, index := none } o v
        = some ({ target := none, index := none }, Atlas.Owner.translateWhole o v) := by
  refine ⟨?_, ?_, ?_, rfl⟩
  · simp [Atlas.Handle.translate, Atlas.Handle.delegateTranslate, hch, hi]
  · simp only [Atlas.Owner.setDirty, Atlas.Owner.isDirty]
    split
    · next hmem => simpa using hmem
    · simp
  · exact List.getElem?_set_self hi

/-- C4 (witness for the amended theorem at a concrete input). -/
theorem Atlas.c4_amended_witness :
    Atlas.Handle.translate { target := some ⟨1, 1, 0⟩, index := some 1 }
        { vertices := [⟨0, 0, 0⟩, ⟨1, 1, 0⟩, ⟨2, 2, 0⟩], dirty := [], visible := true, builds := 0 }
        ⟨1, 2, 0⟩
      = some ({ target := some (Atlas.GeoPoint.translate ⟨1, 1, 0⟩ ⟨1, 2, 0⟩), index := some 1 },
          Atlas.Owner.show'
            (Atlas.Owner.setDirty
              { vertices := [⟨0, 0, 0⟩, Atlas.GeoPoint.translate ⟨1, 1, 0⟩ ⟨1, 2, 0⟩, ⟨2, 2, 0⟩],
                dirty := [], visible := true, builds := 0 } ("vertices"))) :=
  (Atlas.c4_amended
    { vertices := [⟨0, 0, 0⟩, ⟨1, 1, 0⟩, ⟨2, 2, 0⟩], dirty := [], visible := true, builds := 0 }
    ⟨1, 1, 0⟩ ⟨1, 2, 0⟩ 1 (by decide) (by decide)).1

/-- C2 (counterexample): a Feature whose only registered form is a polygon in
the footprint slot and whose display mode is `footprint` accepts
`setDisplayMode('mesh')`: the call returns normally (no error) and the display
mode becomes `mesh`, because `setDisplayMode` (Feature.js lines 415-421) only
validates the mode *name* through `_getFormPropertyName` (lines 200-210) and
never checks that the corresponding form reference is non-null. -/
theorem Atlas.c2_counterexample :
    ∃ f1,
      Atlas.Feature.setDisplayMode
        { line := none
          footprint := some
            { base :=
                { style := some Atlas.GeoEntity.getDefaultStyle, previousStyle := none,
                  dirty := [], visible := false, selected := false }
              height := 0, elevation := 0, showAsExtrusion := false
              vertices := [⟨0, 0, 0⟩, ⟨1, 0, 0⟩, ⟨0, 1, 0⟩] }
          mesh := none, image := none
          displayMode := some .footprint
          height := 0, elevation := 0
          style := some Atlas.GeoEntity.getDefaultStyle
          visible := false }
        (some ("mesh")) = .ok f1
      ∧ f1.displayMode = some Atlas.DisplayMode.mesh := by
  exact ⟨_, rfl, rfl⟩

/-- C2 (amended): `setDisplayMode(mode)` validates only that `mode` is a
recognised display-mode name: any recognised name is accepted — even when no
form is registered for it — and becomes the active display mode, while an
unrecognised name raises the `DeveloperError` of `_getFormPropertyName` and
leaves the feature unchanged.  In particular a footprint-only Feature accepts
`setDisplayMode('mesh')` and ends up in display mode `mesh`. -/
theorem Atlas.c2_amended (f : Atlas.Feature) (s : String) (d : Atlas.DisplayMode)
    (hv : Atlas.DisplayMode.ofString? s = some d) :
    (∃ f1, Atlas.Feature.setDisplayMode f (some s) = .ok f1 ∧ f1.displayMode = some d)
    ∧ (∀ s2, Atlas.DisplayMode.ofString? s2 = none →
        Atlas.Feature.setDisplayMode f (some s2) = .error ("Invalid display mode " ++ s2)) := by
  constructor
  · by_cases hvis : f.visible
    · refine ⟨Atlas.Feature.show' { f with displayMode := some d }, ?_, ?_⟩
      · simp only [Atlas.Feature.setDisplayMode, hv, hvis, if_true]
      · simp only [Atlas.Feature.show']
        cases d <;> simp [Atlas.Feature.mapSlot]
    · refine ⟨Atlas.Feature.hide { f with displayMode := some d }, ?_, ?_⟩
      · simp only [Atlas.Feature.setDisplayMode, hv]
        simp [hvis]
      · simp only [Atlas.Feature.hide, Atlas.Feature.delegateToForm]
        cases d <;> simp [Atlas.Feature.mapSlot, Atlas.DisplayMode.slot]
  · intro s2 h2
    simp only [Atlas.Feature.setDisplayMode, h2]

/-- C2 (witness for the amended theorem at the concrete footprint-only
feature). -/
theorem Atlas.c2_amended_witness :
    ∃ f1,
      Atlas.Feature.setDisplayMode
        { line := none
          footprint := some
            { base :=
                { style := some Atlas.GeoEntity.getDefaultStyle, previousStyle := none,
                  dirty := [], visible := false, selected := false }
              height := 0, elevation := 0, showAsExtrusion := false
              vertices := [⟨0, 0, 0⟩, ⟨1, 0, 0⟩, ⟨0, 1, 0⟩] }
          mesh := none, image := none
          displayMode := some .footprint
          height := 0, elevation := 0
          style := some Atlas.GeoEntity.getDefaultStyle
          visible := false }
        (some ("mesh")) = .ok f1
      ∧ f1.displayMode = some Atlas.DisplayMode.mesh :=
  (Atlas.c2_amended _ ("mesh") Atlas.DisplayMode.mesh (by decide)).1

/-- C7 (counterexample): on a Feature with a footprint polygon and a mesh form,
active mode `footprint`, `setElevation(7)` sets the elevation of the footprint
form only and leaves the mesh form untouched (elevation still 0): the
constructor-installed delegation (`_initDelegation`, Feature.js lines 134-144,
whose list includes `'setElevation'`) shadows the all-forms prototype
`setElevation` (lines 238-242), so the operation reaches the active form only —
contradicting the claim that `setElevation` applies to every registered form. -/
theorem Atlas.c7_counterexample :
    (Atlas.Feature.setElevation Atlas.footprintMeshFeature 7).footprint.map Atlas.Form.elevation
      = some 7
    ∧ (Atlas.Feature.setElevation Atlas.footprintMeshFeature 7).mesh = some Atlas.sampleMeshForm
    ∧ Atlas.sampleMeshForm.elevation = 0 := by
  refine ⟨by decide, by decide, by decide⟩

/-- C7 (amended): `setStyle` and `setHeight` apply to every registered form (the
prototype methods delegate to all forms and are not shadowed), whereas
`setElevation` — shadowed by the delegation `_initDelegation` installs — and the
delegated read/mutate operations such as `translate` are forwarded to the single
currently active form only, leaving the other slots untouched (stated here for a
Feature whose active mode is `footprint`). -/
theorem Atlas.c7_amended (f : Atlas.Feature) (st : Atlas.Style) (h e : ℤ) (v : Atlas.GeoPoint)
    (hm : f.displayMode = some Atlas.DisplayMode.footprint) :
    ((Atlas.Feature.setStyle f st).line.map (fun x => x.base.style)
        = f.line.map (fun _ => some st)
      ∧ (Atlas.Feature.setStyle f st).footprint.map (fun x => x.base.style)
        = f.footprint.map (fun _ => some st)
      ∧ (Atlas.Feature.setStyle f st).mesh.map (fun x => x.base.style)
        = f.mesh.map (fun _ => some st)
      ∧ (Atlas.Feature.setStyle f st).image.map (fun x => x.base.style)
        = f.image.map (fun _ => some st))
    ∧ ((Atlas.Feature.setHeight f h).line.map Atlas.Form.height = f.line.map (fun _ => h)
      ∧ (Atlas.Feature.setHeight f h).footprint.map Atlas.Form.height = f.footprint.map (fun _ => h)
      ∧ (Atlas.Feature.setHeight f h).mesh.map Atlas.Form.height = f.mesh.map (fun _ => h)
      ∧ (Atlas.Feature.setHeight f h).image.map Atlas.Form.height = f.image.map (fun _ => h))
    ∧ ((Atlas.Feature.setElevation f e).line = f.line
      ∧ (Atlas.Feature.setElevation f e).mesh = f.mesh
      ∧ (Atlas.Feature.setElevation f e).image = f.image
      ∧ (Atlas.Feature.setElevation f e).footprint.map Atlas.Form.elevation
        = f.footprint.map (fun _ => e))
    ∧ ((Atlas.Feature.translate f v).line = f.line
      ∧ (Atlas.Feature.translate f v).mesh = f.mesh
      ∧ (Atlas.Feature.translate f v).image = f.image
      ∧ (Atlas.Feature.translate f v).footprint
        = f.footprint.map (fun x => Atlas.Form.translate x v)) := by
  refine ⟨⟨?_, ?_, ?_, ?_⟩, ⟨?_, ?_, ?_, ?_⟩, ⟨?_, ?_, ?_, ?_⟩, ⟨?_, ?_, ?_, ?_⟩⟩ <;>
    simp [Atlas.Feature.setStyle, Atlas.Feature.setHeight, Atlas.Feature.setElevation,
      Atlas.Feature.translate, Atlas.Feature.delegateToForms, Atlas.Feature.delegateToForm,
      Atlas.DisplayMode.ids, Atlas.Feature.mapSlot, Atlas.DisplayMode.slot, hm,
      Option.map_map, Function.comp_def, Atlas.Form.setStyle_base_style, Atlas.Form.setHeight_height,
      Atlas.Form.setElevation_elevation]

/-- C7 (witness for the amended theorem at the footprint+mesh feature): the
mesh slot survives `setElevation` unchanged while the footprint slot takes the
new elevation. -/
theorem Atlas.c7_amended_witness :
    (Atlas.Feature.setElevation Atlas.footprintMeshFeature 7).line
        = Atlas.footprintMeshFeature.line
    ∧ (Atlas.Feature.setElevation Atlas.footprintMeshFeature 7).mesh
        = Atlas.footprintMeshFeature.mesh
    ∧ (Atlas.Feature.setElevation Atlas.footprintMeshFeature 7).image
        = Atlas.footprintMeshFeature.image
    ∧ (Atlas.Feature.setElevation Atlas.footprintMeshFeature 7).footprint.map Atlas.Form.elevation
        = Atlas.footprintMeshFeature.footprint.map (fun _ => (7 : ℤ)) :=
  (Atlas.c7_amended Atlas.footprintMeshFeature
    { fillColour := .red, borderColour := .black } 5 7 ⟨1, 2, 0⟩ rfl).2.2.1

/-- C6: on a Collection (the Collection module appended to Feature.js, lines
702-741), `isRenderable` and `isSelected` hold exactly when every tracked child
satisfies the corresponding predicate (AND semantics over `ItemStore.every`),
while `isVisible` holds exactly when at least one child does (OR semantics over
`ItemStore.some`); in particular a collection with one visible and one hidden
child is visible, and a collection containing a non-renderable child is not
renderable regardless of the other children. -/
theorem Atlas.c6_collection_and_or_semantics (c : Atlas.CollectionState) :
    (Atlas.CollectionState.isRenderable c = true
      ↔ ∀ e ∈ c.entities, Atlas.GeoEntity.isRenderable e = true)
    ∧ (Atlas.CollectionState.isSelected c = true
      ↔ ∀ e ∈ c.entities, Atlas.GeoEntity.isSelected e = true)
    ∧ (Atlas.CollectionState.isVisible c = true
      ↔ ∃ e ∈ c.entities, Atlas.GeoEntity.isVisible e = true)
    ∧ Atlas.CollectionState.isVisible ⟨[Atlas.visibleChild, Atlas.hiddenChild]⟩ = true
    ∧ Atlas.CollectionState.isRenderable ⟨[Atlas.dirtyChild, Atlas.visibleChild]⟩ = false := by
  refine ⟨?_, ?_, ?_, by decide, by decide⟩ <;>
    simp [Atlas.CollectionState.isRenderable, Atlas.CollectionState.isSelected,
      Atlas.CollectionState.isVisible, Atlas.CollectionState.everyEntity,
      Atlas.CollectionState.someEntity, List.all_eq_true, List.any_eq_true]

/-- C8: when an `entity/remove` event bubbles from a child up to a Collection
(the child is not the collection itself), the Collection's listener
(`Collection._initEvents`, Feature.js lines 753-770) detaches the child from the
Collection's ItemStore exactly when it is a tracked child, and cancels the
event, so that no ancestor above the Collection observes it: the dispatch visits
the child and the Collection only, and every ancestor node is returned
untouched. -/
theorem Atlas.c8_remove_event_cancelled_at_collection
    (childId collId : String) (es : List String) (ancestors : List Atlas.Node)
    (hne : childId ≠ collId) :
    Atlas.dispatchEntityRemove childId
        ({ id := childId, kind := .plain, entities := [] }
          :: { id := collId, kind := .collection, entities := es } :: ancestors)
      = ({ id := childId, kind := .plain, entities := [] }
          :: { id := collId, kind := .collection,
               entities := if es.contains childId then es.erase childId else es } :: ancestors,
        [childId, collId]) := by
  by_cases hmem : childId ∈ es <;>
    simp [Atlas.dispatchEntityRemove, Atlas.handleEntityRemove, hne, hmem]

/-- C8 (witness): a concrete chain — child `"c"`, a collection tracking
`["c", "x"]`, and a grandparent above it. -/
theorem Atlas.c8_remove_event_cancelled_at_collection_witness :
    Atlas.dispatchEntityRemove ("c")
        ({ id := ("c"), kind := .plain, entities := [] }
          :: { id := ("p"), kind := .collection, entities := [("c"), ("x")] }
          :: [{ id := ("g"), kind := .plain, entities := [] }])
      = ({ id := ("c"), kind := .plain, entities := [] }
          :: { id := ("p"), kind := .collection,
               entities := if [("c"), ("x")].contains ("c")
                 then [("c"), ("x")].erase ("c") else [("c"), ("x")] }
          :: [{ id := ("g"), kind := .plain, entities := [] }],
        [("c"), ("p")]) :=
  Atlas.c8_remove_event_cancelled_at_collection ("c") ("p") [("c"), ("x")]
    [{ id := ("g"), kind := .plain, entities := [] }] (by decide)

/-- C9: `EntityManager.add` (part_004 lines 511-522) accepts a first GeoEntity,
throws on a second entity with the same id and leaves the store containing only
the first, and rejects values that are not GeoEntity instances with the distinct
`DeveloperError` kind. -/
theorem Atlas.c9_duplicate_id_rejected (e1 e2 : Atlas.StoreEntry)
    (h1 : e1.isGeoEntity = true) (hid : e2.id = e1.id) :
    Atlas.EntityManager.add [] e1 = .ok [e1]
    ∧ Atlas.EntityManager.add [e1] e2 = .error (.duplicateId e2.id)
    ∧ (∀ e3 : Atlas.StoreEntry, e3.isGeoEntity = false →
        Atlas.EntityManager.add [] e3 = .error .notGeoEntity)
    ∧ Atlas.AddError.duplicateId e2.id ≠ Atlas.AddError.notGeoEntity := by
  refine ⟨?_, ?_, ?_, by simp⟩
  · simp [Atlas.EntityManager.add, h1]
  · simp [Atlas.EntityManager.add, hid]
  · intro e3 h3
    simp [Atlas.EntityManager.add, h3]

/-- C9 (witness): two concrete entities sharing the id `"a"`. -/
theorem Atlas.c9_duplicate_id_rejected_witness :
    Atlas.EntityManager.add [] { id := ("a"), isGeoEntity := true }
        = .ok [{ id := ("a"), isGeoEntity := true }]
    ∧ Atlas.EntityManager.add [{ id := ("a"), isGeoEntity := true }]
        { id := ("a"), isGeoEntity := true }
        = .error (.duplicateId ("a")) := by
  have h := Atlas.c9_duplicate_id_rejected
    { id := ("a"), isGeoEntity := true } { id := ("a"), isGeoEntity := true } rfl rfl
  exact ⟨h.1, h.2.1⟩

/-- C3: for every batch of descriptors (in any input order) on which
`bulkCreate` (part_004 lines 320-367) succeeds, if descriptor `p` declares `c`
among its `children` then the entity `c` is already in the manager's store —
hence retrievable via `getById(c)` — at the moment `p` is about to be created;
and the creation order is exactly the reversed topological sort of the
parent→child edges followed, in input order, by the descriptors not taking part
in any hierarchy. -/
theorem Atlas.c3_children_created_before_parents (batch : List Atlas.C3ml)
    (store0 order store : List String) (p c : String)
    (hok : Atlas.bulkCreate batch store0 = .ok (order, store))
    (hedge : ∃ d ∈ batch, d.id = p ∧ c ∈ d.children) :
    (∃ st, Atlas.storeWhenCreating batch store0 order p = .ok st ∧ c ∈ st)
    ∧ (∃ sorted, Atlas.topsort (Atlas.c3Edges batch) = .ok sorted
        ∧ order = sorted.reverse
            ++ (batch.map Atlas.C3ml.id).filter (fun i => !(Atlas.inSortMap batch i))) := by
  unfold Atlas.bulkCreate at hok
  split at hok
  case h_2 => cases hok
  case h_1 order1 ho =>
    split at hok
    case h_2 => cases hok
    case h_1 store1 hcf =>
      injection hok with hpair
      injection hpair with h1 h2
      subst h1
      subst h2
      unfold Atlas.bulkCreateOrder at ho
      split at ho
      case isFalse => cases ho
      case isTrue hnd =>
        split at ho
        case h_2 => cases ho
        case h_1 sorted hts =>
          injection ho with ho
          subst ho
          obtain ⟨d, hd, hdp, hc⟩ := hedge
          have htopsort : Atlas.topsort (Atlas.c3Edges batch) = .ok sorted := hts
          have hedge1 : (p, c) ∈ Atlas.c3Edges batch := hdp ▸ Atlas.mem_c3Edges hd hc
          have hpn : p ∈ Atlas.edgeNodes (Atlas.c3Edges batch) := Atlas.mem_edgeNodes_left hedge1
          have hcn : c ∈ Atlas.edgeNodes (Atlas.c3Edges batch) := Atlas.mem_edgeNodes_right hedge1
          unfold Atlas.topsort at hts
          have hbef : Atlas.listBefore sorted p c = true :=
            Atlas.kahnGo_order _ _ _ _ hts p c hedge1 hpn hcn
          have hbefrev : Atlas.listBefore
              (sorted.reverse
                ++ (batch.map Atlas.C3ml.id).filter (fun i => !(Atlas.inSortMap batch i))) c p =
              true :=
            Atlas.listBefore_append_left _ (Atlas.listBefore_reverse hbef)
          have hndsorted : sorted.Nodup :=
            Atlas.kahnGo_nodup _ _ _ _ (List.nodup_dedup _) hts
          have hndorder :
              (sorted.reverse
                ++ (batch.map Atlas.C3ml.id).filter (fun i => !(Atlas.inSortMap batch i))).Nodup := by
            refine List.Nodup.append (List.nodup_reverse.mpr hndsorted) (hnd.filter _) ?_
            intro x hxl hxr
            have hx1 : x ∈ sorted := List.mem_reverse.mp hxl
            have hx2 : x ∈ Atlas.edgeNodes (Atlas.c3Edges batch) :=
              (Atlas.kahnGo_mem _ _ _ _ hts x).mp hx1
            have hx3 := Atlas.inSortMap_of_mem_edgeNodes hx2
            have hx4 := List.of_mem_filter hxr
            simp [hx3] at hx4
          have htw : c ∈ (sorted.reverse
              ++ (batch.map Atlas.C3ml.id).filter
                (fun i => !(Atlas.inSortMap batch i))).takeWhile (fun x => !(x == p)) :=
            Atlas.listBefore_mem_takeWhile hndorder hbefrev
          set order := sorted.reverse
            ++ (batch.map Atlas.C3ml.id).filter (fun i => !(Atlas.inSortMap batch i)) with horder
          refine ⟨?_, sorted, htopsort, rfl⟩
          have hsplit : order.takeWhile (fun x => !(x == p))
              ++ order.dropWhile (fun x => !(x == p)) = order :=
            List.takeWhile_append_dropWhile (fun x => !(x == p)) order
          rw [← hsplit] at hcf
          obtain ⟨st1, hst1, _⟩ := Atlas.createFold_append batch _ _ _ _ hcf
          refine ⟨st1, hst1, ?_⟩
          exact (Atlas.createFold_mem batch _ _ _ hst1).2 c htw

/-- C3 (witness): the batch `[{id: "p", children: ["c"]}, {id: "c"}]` with parent
first — `"c"` is in the store when `"p"` is about to be created. -/
theorem Atlas.c3_children_created_before_parents_witness :
    ∃ st,
      Atlas.storeWhenCreating
        [{ id := ("p"), children := [("c")] }, { id := ("c"), children := [] }] []
        [("c"), ("p")] ("p") = .ok st
      ∧ ("c") ∈ st :=
  (Atlas.c3_children_created_before_parents
    [{ id := ("p"), children := [("c")] }, { id := ("c"), children := [] }]
    [] [("c"), ("p")] [("c"), ("p")] ("p") ("c")
    rfl
    ⟨{ id := ("p"), children := [("c")] }, by decide, rfl, by decide⟩).1
